import Mathlib

/-!
# Verification of the UKV LevelDB backend and argument-bundle layer

A shallow embedding of the UKV sources:

* `src/src/ukv_leveldb.cpp` — the LevelDB engine adapter: batched
  `ukv_write` / `ukv_read` (with their `write_one` / `write_many` and
  `read_one` / `read_many` fast paths), the integral key comparator, and the
  unsupported-capability stubs (`ukv_collection_open`, `ukv_txn_begin`, ...).
* `src/include/ustore/cpp/ranges_args.hpp` — the Structure-of-Arrays argument
  bundles (`places_arg_t`, `contents_arg_t`, `scans_arg_t`, `find_edges_t`,
  `edges_range_gt`) and the preflight validators (`validate_write`,
  `validate_read`, `validate_scan`).
* `src/python/pybind_networkx.cpp` — the `neighbors` query of the graph
  modality.

Machine integers are modelled as `Nat`/`Int` with explicit `% 2^32` where the
C code performs 32-bit unsigned arithmetic.  Nullable C pointers become
`Option`; a strided iterator over an input array becomes
`Option (Nat → α)` — `none` is the NULL pointer, and `some f` maps the index
`i` to the element the C code would load at `base + i * stride`
(stride 0 broadcasting is the constant function).
-/

namespace UKV

/-- Values are uninterpreted byte sequences; a byte is a `Nat` (< 256 in real runs,
but nothing below depends on the bound). -/
abbrev Value := List Nat

/-- `ukv_val_len_t` is `uint32_t`; its maximum is the "missing" sentinel
(`ukv_val_len_missing_k = std::numeric_limits<ukv_val_len_t>::max()`). -/
def ukv_val_len_missing_k : Nat := 2 ^ 32 - 1

/-- The LevelDB store under the integral comparator: a map from
64-bit signed integer keys to optional byte-string values.  `db.Get`,
`db.Put` and `db.Delete` are the evident operations on this map. -/
def LevelDB := Int → Option Value

/-- `leveldb::DB::Put(options, key, value)` on the pure store state. -/
def dbPut (db : LevelDB) (k : Int) (v : Value) : LevelDB :=
  fun k2 => if k2 = k then some v else db k2

/-- `leveldb::DB::Delete(options, key)` on the pure store state. -/
def dbDelete (db : LevelDB) (k : Int) : LevelDB :=
  fun k2 => if k2 = k then none else db k2

/-- `leveldb::DB::Get(options, key, &value)`: `some v` when found, `none`
when the status is `IsNotFound`. -/
def dbGet (db : LevelDB) (k : Int) : Option Value := db k

/-- One element of `write_tasks_soa_t` (from `helpers.hpp`, whose only use
here is `task.key`, `task.is_deleted()` and `task.view()`): a key plus an
optional payload, `none` meaning the task is a deletion. -/
structure write_task_t where
  key : Int
  value : Option Value
deriving DecidableEq

/-- `task.is_deleted()`. -/
def write_task_t.is_deleted (t : write_task_t) : Bool := t.value.isNone

/-- The effect of a single write task on the store:
`task.is_deleted() ? db.Delete(options, key) : db.Put(options, key, view)`. -/
def applyTask (db : LevelDB) (t : write_task_t) : LevelDB :=
  match t.value with
  | none => dbDelete db t.key
  | some v => dbPut db t.key v

/-- `write_one` (ukv_leveldb.cpp): the single-pair fast path — one direct
`Put` or `Delete` of `tasks[0]`; an empty task list leaves the store as is
(the C function is only ever invoked with count 1). -/
def write_one (db : LevelDB) (tasks : List write_task_t) : LevelDB :=
  match tasks with
  | [] => db
  | t :: _ => applyTask db t

/-- `write_many` (ukv_leveldb.cpp): fills a `leveldb::WriteBatch` with a
`Put`/`Delete` per task, in task order, and applies it with one `db.Write`;
the batch replays its operations in insertion order. -/
def write_many (db : LevelDB) (tasks : List write_task_t) : LevelDB :=
  tasks.foldl applyTask db

/-- `ukv_write` (ukv_leveldb.cpp): dispatches on the key count —
`c_keys_count == 1 ? &write_one : &write_many`.  The task list stands for
the SoA arguments, so the key count is its length. -/
def ukv_write (db : LevelDB) (tasks : List write_task_t) : LevelDB :=
  if tasks.length = 1 then write_one db tasks else write_many db tasks

/-- The outcome of a read call.  `arena_lens` and `arena_tape` are the
lengths array and the value bytes the call materialises in the arena
output tape; `found_lengths` / `found_values` are what the call stores
through the `c_found_lengths` / `c_found_values` out-parameters — `none`
when the function returns without ever assigning them, in which case the
caller receives nothing even though the arena holds data. -/
structure read_result_t where
  arena_lens : List Nat
  arena_tape : Value
  found_lengths : Option (List Nat)
  found_values : Option Value
deriving DecidableEq

/-- `read_one` (ukv_leveldb.cpp): a single `db.Get`.  On `IsNotFound` the
scratch string stays empty, the exported length is
`ukv_val_len_missing_k` and zero value bytes are copied to the tape; on a
hit the exported length is `value.size()` and the bytes follow the length
word on the tape.  `*c_found_lengths` is then pointed at the length word
and `*c_found_values` at the bytes after it — both out-parameters are
assigned. -/
def read_one (db : LevelDB) (k : Int) : read_result_t :=
  match dbGet db k with
  | none =>
    { arena_lens := [ukv_val_len_missing_k]
      arena_tape := []
      found_lengths := some [ukv_val_len_missing_k]
      found_values := some [] }
  | some v =>
    { arena_lens := [v.length]
      arena_tape := v
      found_lengths := some [v.length]
      found_values := some v }

/-- The loop of `read_many` (ukv_leveldb.cpp): the lengths array is
initialised with `std::fill_n(lens, n, 0)`, then for each key in order a
`db.Get` is performed; a miss `continue`s (leaving the prefilled `0` in
place and appending nothing), a hit appends the bytes to the tape and
stores `value.size()` in `lens[i]`.  Result: `(lens, tape)` as laid out in
the arena. -/
def read_many_loop (db : LevelDB) : List Int → List Nat × Value
  | [] => ([], [])
  | k :: ks =>
    let rest := read_many_loop db ks
    match dbGet db k with
    | none => (0 :: rest.1, rest.2)
    | some v => (v.length :: rest.1, v ++ rest.2)

/-- `read_many` (ukv_leveldb.cpp): runs the loop above into the arena, but
— unlike `read_one` — returns without ever assigning the
`c_found_lengths` / `c_found_values` out-parameters it receives, so the
computed lengths and tape are never handed to the caller. -/
def read_many (db : LevelDB) (ks : List Int) : read_result_t :=
  { arena_lens := (read_many_loop db ks).1
    arena_tape := (read_many_loop db ks).2
    found_lengths := none
    found_values := none }

/-- `ukv_read` (ukv_leveldb.cpp): dispatches on the key count —
`c_keys_count == 1 ? &read_one : &read_many` — and forwards the
out-parameters to the chosen target unchanged. -/
def ukv_read (db : LevelDB) (keys : List Int) : read_result_t :=
  if keys.length = 1 then
    match keys with
    | k :: _ => read_one db k
    | [] => read_many db []
  else read_many db keys

/-- The empty store. -/
def emptyDB : LevelDB := fun _ => none

/-! ## Capability stubs of the LevelDB adapter

`ukv_collection_open`, `ukv_collection_remove`, `ukv_txn_begin` and
`ukv_txn_commit` in `ukv_leveldb.cpp` only write a static message through the
`c_error` out-parameter; they never touch the database handle, never write
the collection/transaction out-parameter, and perform no store operation.
Each is modelled as a function from the store state to
`(new state, out-parameter, error)`. -/

/-- `ukv_collection_open` (ukv_leveldb.cpp): sets the error
"Collections not supported by LevelDB!", writes no collection handle and
leaves the store untouched. -/
def ukv_collection_open (db : LevelDB) : LevelDB × Option Nat × Option String :=
  (db, none, some "Collections not supported by LevelDB!")

/-- `ukv_collection_remove` (ukv_leveldb.cpp): sets the error
"Collections not supported by LevelDB!" and leaves the store untouched. -/
def ukv_collection_remove (db : LevelDB) : LevelDB × Option String :=
  (db, some "Collections not supported by LevelDB!")

/-- `ukv_txn_begin` (ukv_leveldb.cpp): sets the error
"Transactions not supported by LevelDB!", writes no transaction handle and
leaves the store untouched. -/
def ukv_txn_begin (db : LevelDB) : LevelDB × Option Unit × Option String :=
  (db, none, some "Transactions not supported by LevelDB!")

/-- `ukv_txn_commit` (ukv_leveldb.cpp): sets the error
"Transactions not supported by LevelDB!" and leaves the store untouched
(the C function does not even receive the database handle). -/
def ukv_txn_commit (db : LevelDB) : LevelDB × Option String :=
  (db, some "Transactions not supported by LevelDB!")

/-! ## The integral key comparator -/

/-- Little-endian byte image of a `ukv_key_t` (`int64_t`), as `to_slice`
exposes the 8 key bytes to LevelDB: byte `j` of the two-complement
representation. -/
def sliceOfKey (k : Int) : List Nat :=
  (List.range 8).map (fun j => (k % 2 ^ 64).toNat / 256 ^ j % 256)

/-- The `*reinterpret_cast<ukv_key_t const*>(slice.data())` load inside the
comparator: the first 8 bytes read little-endian and interpreted as a signed
two-complement 64-bit integer. -/
def keyOfSlice (bs : List Nat) : Int :=
  let u : Nat := (bs.take 8).foldr (fun b acc => b + 256 * acc) 0
  if u < 2 ^ 63 then (u : Int) else (u : Int) - 2 ^ 64

/-- `key_comparator_t::Compare` (ukv_leveldb.cpp): reinterpret both slices
as signed 64-bit integers; `0` when equal, `-1` when the first is smaller,
`1` otherwise. -/
def key_comparator_Compare (a b : List Nat) : Int :=
  let ai := keyOfSlice a
  let bi := keyOfSlice b
  if ai = bi then 0 else if ai < bi then -1 else 1

/-! ## SoA argument bundles (`ranges_args.hpp`)

A strided input iterator (`strided_iterator_gt`) is `Option (Nat → α)`:
`none` is the NULL pointer, `some f` yields `f i` for the element at
`base + i * stride` (a stride-0 broadcast is a constant `f`). -/

/-- Modelled from the spec: the numeric values of `ustore_collection_main_k`
and the option flags live in the public type headers, which are not under
`src/`; the flags are distinct bits of the options bitmask (§6), and the
main collection id is a fixed constant (§3). -/
def ustore_collection_main_k : Nat := 0

/-- Modelled from the spec: `transaction_dont_watch` flag bit (§6). -/
def ustore_option_transaction_dont_watch_k : Nat := 1

/-- Modelled from the spec: `dont_discard_memory` flag bit (§6). -/
def ustore_option_dont_discard_memory_k : Nat := 2

/-- Modelled from the spec: `read_shared_memory` flag bit (§6). -/
def ustore_option_read_shared_memory_k : Nat := 4

/-- Modelled from the spec: `write_flush` flag bit (§6). -/
def ustore_option_write_flush_k : Nat := 8

/-- Modelled from the spec: `scan_bulk` flag bit (§6). -/
def ustore_option_scan_bulk_k : Nat := 16

/-- Modelled from the spec: the vertex roles form a bitfield — source (1),
target (2), any (3) (§4.6). -/
def ustore_vertex_role_source_k : Nat := 1

/-- Modelled from the spec: the target role bit (§4.6). -/
def ustore_vertex_role_target_k : Nat := 2

/-- Modelled from the spec: the "any" role, the OR of both bits (§4.6). -/
def ustore_vertex_role_any_k : Nat := 3

/-- Modelled from the spec: the sentinel edge id meaning "unlabeled" (§3);
its numeric value is not under `src/`, and nothing below depends on it. -/
def ustore_default_edge_id_k : Int := 0

/-- `place_t` (ranges_args.hpp): `(collection, key, optional field)`. -/
structure place_t where
  collection : Nat
  key : Int
  field : Option String

/-- `places_arg_t` (ranges_args.hpp): the SoA bundle of write/read
addresses. -/
structure places_arg_t where
  collections_begin : Option (Nat → Nat)
  keys_begin : Option (Nat → Int)
  fields_begin : Option (Nat → Option String)
  count : Nat

/-- `places_arg_t::operator[]` (ranges_args.hpp): a NULL collections
iterator defaults to the main collection and a NULL fields iterator to no
field; `keys_begin[i]` is dereferenced unconditionally (NULL keys are
undefined behaviour in C, totalised here as key `0` — the validators reject
that case before any bundle is indexed). -/
def places_arg_t.get (p : places_arg_t) (i : Nat) : place_t where
  collection := match p.collections_begin with
    | some c => c i
    | none => ustore_collection_main_k
  key := match p.keys_begin with
    | some k => k i
    | none => 0
  field := match p.fields_begin with
    | some f => f i
    | none => none

/-- `contents_arg_t` (ranges_args.hpp): the SoA bundle of payloads.  Every
`contents_begin[i]` is itself a nullable byte pointer, modelled as the
`Option`al list of bytes in memory from that address on. -/
structure contents_arg_t where
  presences_begin : Option (Nat → Bool)
  offsets_begin : Option (Nat → Nat)
  lengths_begin : Option (Nat → Nat)
  contents_begin : Option (Nat → Option (List Nat))
  count : Nat
  separator : Nat

/-- The payload slice picked by `contents_arg_t::operator[]` once the
pointer and presence guards passed: start at `contents_begin[i] + off`
where `off = offsets_begin ? offsets_begin[i] : 0`, with the length probed
in order — explicit `lengths_begin[i]`, else the 32-bit difference
`offsets_begin[i+1] - off`, else a scan to the first separator byte (the C
loop reads past the buffer when no separator occurs; the model stops at the
end of memory). -/
def contents_payload (c : contents_arg_t) (i : Nat) (buf : List Nat) : List Nat :=
  let off := match c.offsets_begin with
    | some o => o i
    | none => 0
  let len := match c.lengths_begin with
    | some l => l i
    | none => match c.offsets_begin with
      | some o => (o (i + 1) + 2 ^ 32 - o i) % 2 ^ 32
      | none => ((buf.drop off).takeWhile (fun b => b != c.separator)).length
  (buf.drop off).take len

/-- `contents_arg_t::operator[]` (ranges_args.hpp): returns the null view
(`none`) when the bundle pointer is NULL, the element pointer is NULL, or a
presences bitmap is given and its bit `i` is clear; otherwise the payload
slice. -/
def contents_arg_t.get (c : contents_arg_t) (i : Nat) : Option (List Nat) :=
  match c.contents_begin with
  | none => none
  | some cb =>
    match cb i with
    | none => none
    | some buf =>
      if (match c.presences_begin with
          | some p => !(p i)
          | none => false) then none
      else some (contents_payload c i buf)

/-- `scans_arg_t` (ranges_args.hpp): the SoA bundle of scan requests. -/
structure scans_arg_t where
  collections : Option (Nat → Nat)
  start_keys : Option (Nat → Int)
  limits : Option (Nat → Nat)
  count : Nat

/-- `find_edge_t` (ranges_args.hpp). -/
structure find_edge_t where
  collection : Nat
  vertex_id : Int
  role : Nat

/-- `find_edges_t` (ranges_args.hpp): the SoA bundle of vertex queries. -/
structure find_edges_t where
  collections_begin : Option (Nat → Nat)
  vertex_id_begin : Option (Nat → Int)
  roles_begin : Option (Nat → Nat)
  count : Nat

/-- `find_edges_t::operator[]` (ranges_args.hpp): NULL collections default
to the main collection, NULL roles to the "any" role; `vertex_id_begin[i]`
is dereferenced unconditionally (totalised as `0` on NULL). -/
def find_edges_t.get (f : find_edges_t) (i : Nat) : find_edge_t where
  collection := match f.collections_begin with
    | some c => c i
    | none => ustore_collection_main_k
  vertex_id := match f.vertex_id_begin with
    | some v => v i
    | none => 0
  role := match f.roles_begin with
    | some r => r i
    | none => ustore_vertex_role_any_k

/-- `edge_t`: `(source_id, target_id, id)`. -/
structure edge_t where
  source_id : Int
  target_id : Int
  id : Int
deriving DecidableEq

/-- `edges_range_gt` (ranges_args.hpp): three parallel strided ranges.  An
element lookup never fails, so the ranges are plain index functions. -/
structure edges_range_t where
  source_ids : Nat → Int
  target_ids : Nat → Int
  edge_ids : Nat → Int

/-- The `edges_range_gt` constructor taking sources and targets only: the
edge ids default to `{&ustore_default_edge_id_k, 1}`.  Modelled from the
spec: `strided_range_gt` (ranges.hpp) is not under `src/`; per §4.1 a
one-element range reused for every index is a stride-0 broadcast of the
default edge id. -/
def edges_range_no_ids (sources targets : Nat → Int) : edges_range_t where
  source_ids := sources
  target_ids := targets
  edge_ids := fun _ => ustore_default_edge_id_k

/-- `edges_range_gt::operator[]` (ranges_args.hpp). -/
def edges_range_t.get (r : edges_range_t) (i : Nat) : edge_t where
  source_id := r.source_ids i
  target_id := r.target_ids i
  id := r.edge_ids i

/-! ## Preflight validators (`ranges_args.hpp`) -/

/-- The error kinds of the core (status.hpp / §7); the validators only ever
produce `args_wrong_k`. -/
inductive error_kind_t where
  | args_wrong_k
  | missing_collection_k
  | conflict_k
  | transaction_required_k
  | unimplemented_k
  | out_of_memory_k
  | io_k
  | corruption_k
  | unknown_k
deriving DecidableEq

/-- A validator either passes (`none`) or reports `(kind, message)`;
`return_error_if_m` fires on the first failed check. -/
abbrev validation_result_t := Option (error_kind_t × String)

/-- `enum_is_subset` (ranges_args.hpp): `(enum_value & ~allowed) == 0` over
the 32-bit options word — the complement is XOR with the all-ones mask. -/
def enum_is_subset (enum_value allowed : Nat) : Bool :=
  enum_value &&& ((2 ^ 32 - 1) ^^^ allowed) == 0

/-- The `allowed_options` local of `validate_write`. -/
def write_allowed_options : Nat :=
  ustore_option_transaction_dont_watch_k |||
  ustore_option_dont_discard_memory_k |||
  ustore_option_write_flush_k

/-- The `allowed_options` local of `validate_read`. -/
def read_allowed_options : Nat :=
  ustore_option_transaction_dont_watch_k |||
  ustore_option_dont_discard_memory_k |||
  ustore_option_read_shared_memory_k

/-- The `allowed_options` local of `validate_scan`. -/
def scan_allowed_options : Nat :=
  ustore_option_transaction_dont_watch_k |||
  ustore_option_dont_discard_memory_k |||
  ustore_option_read_shared_memory_k |||
  ustore_option_scan_bulk_k

/-- `validate_write` (ranges_args.hpp): options must be a subset of the
write set; keys must be non-NULL; and the remove-all form (NULL contents)
must not come with lengths or offsets.  The last message is spelled with an
apostrophe in the source. -/
def validate_write (c_txn : Option Unit) (places : places_arg_t)
    (contents : contents_arg_t) (c_options : Nat) : validation_result_t :=
  if !(enum_is_subset c_options write_allowed_options) then
    some (.args_wrong_k, "Invalid options!")
  else if places.keys_begin.isNone then
    some (.args_wrong_k, "No keys were provided!")
  else
    let remove_all := contents.contents_begin.isNone
    if remove_all && !(contents.lengths_begin.isNone && contents.offsets_begin.isNone) then
      some (.args_wrong_k, "Can not address NULLs!")
    else none

/-- `validate_read` (ranges_args.hpp): options must be a subset of the read
set; keys must be non-NULL. -/
def validate_read (c_txn : Option Unit) (places : places_arg_t)
    (c_options : Nat) : validation_result_t :=
  if !(enum_is_subset c_options read_allowed_options) then
    some (.args_wrong_k, "Invalid options!")
  else if places.keys_begin.isNone then
    some (.args_wrong_k, "No keys were provided!")
  else none

/-- `validate_scan` (ranges_args.hpp): options must be a subset of the scan
set; limits must be non-NULL.  The last message is contracted in the
source. -/
def validate_scan (c_txn : Option Unit) (args : scans_arg_t)
    (c_options : Nat) : validation_result_t :=
  if !(enum_is_subset c_options scan_allowed_options) then
    some (.args_wrong_k, "Invalid options!")
  else if args.limits.isNone then
    some (.args_wrong_k, "Full scans are not supported - paginate!")
  else none

/-! ## The graph modality `neighbors` query (`pybind_networkx.cpp`) -/

/-- One entry of a vertex adjacency record: `(neighbor_id, edge_id, role)`
with the role a bitfield (§4.6). -/
structure adj_entry_t where
  neighbor : Int
  edge_id : Int
  role : Nat
deriving DecidableEq

/-- Modelled from the spec: `graph_collection_t::edges(v, role)` — the
graph layer behind `g.ref().edges(n, ukv_vertex_role_any_k)` — is not under
`src/`.  Per §4.6 it scans the adjacency record of `n`: an entry
`(neighbor, e, role)` holding the source bit reconstructs the edge
`(n, neighbor, e)` (the record owner is the source), otherwise the edge
`(neighbor, n, e)` (the record owner is the target). -/
def edges_of_adjacency (n : Int) (adj : List adj_entry_t) : List edge_t :=
  adj.map (fun a =>
    if a.role &&& ustore_vertex_role_source_k ≠ 0 then
      { source_id := n, target_id := a.neighbor, id := a.edge_id }
    else
      { source_id := a.neighbor, target_id := n, id := a.edge_id })

/-- `neighbors` (pybind_networkx.cpp): over the edges incident to `n`, swap
`source_ids[i]` and `target_ids[i]` whenever the source equals `n`, then
return the buffer of target ids. -/
def neighbors (n : Int) (es : List edge_t) : List Int :=
  (es.map (fun e =>
    if e.source_id = n then
      { e with source_id := e.target_id, target_id := e.source_id }
    else e)).map (fun e => e.target_id)

/-- The `off` local of `contents_arg_t::operator[]`:
`offsets_begin ? offsets_begin[i] : 0`. -/
def payload_offset (c : contents_arg_t) (i : Nat) : Nat :=
  match c.offsets_begin with
  | some o => o i
  | none => 0

/-! ## Helper lemmas -/

theorem take_length_takeWhile (p : Nat → Bool) (l : List Nat) :
    l.take (l.takeWhile p).length = l.takeWhile p := by
  induction l with
  | nil => rfl
  | cons a l ih =>
    by_cases hp : p a
    · simp [List.takeWhile, hp, ih]
    · simp [List.takeWhile, hp]

theorem applyTask_ne (db : LevelDB) (t : write_task_t) (k : Int) (h : t.key ≠ k) :
    applyTask db t k = db k := by
  cases hv : t.value with
  | none =>
    simp only [applyTask, hv, dbDelete]
    rw [if_neg (fun hk => h hk.symm)]
  | some v =>
    simp only [applyTask, hv, dbPut]
    rw [if_neg (fun hk => h hk.symm)]

theorem write_many_ne (db : LevelDB) (tasks : List write_task_t) (k : Int)
    (h : ∀ t ∈ tasks, t.key ≠ k) : write_many db tasks k = db k := by
  induction tasks generalizing db with
  | nil => rfl
  | cons t ts ih =>
    have : write_many db (t :: ts) = write_many (applyTask db t) ts := rfl
    rw [this, ih (applyTask db t) (fun t2 ht2 => h t2 (List.mem_cons_of_mem t ht2))]
    exact applyTask_ne db t k (h t (List.mem_cons_self t ts))

/-- Every key of a put batch `zipWith (fun k v => {key := k, value := some v})`
comes from the key column. -/
theorem key_mem_of_mem_zip (ks : List Int) (vs : List Value) (t : write_task_t)
    (h : t ∈ List.zipWith (fun k v => write_task_t.mk k (some v)) ks vs) :
    t.key ∈ ks := by
  induction ks generalizing vs with
  | nil => simp at h
  | cons k ks ih =>
    cases vs with
    | nil => simp at h
    | cons v vs =>
      simp only [List.zipWith, List.mem_cons] at h
      rcases h with h | h
      · rw [h]; exact List.mem_cons_self k ks
      · exact List.mem_cons_of_mem k (ih vs h)

/-- After `write_many` of a put batch over distinct keys, every key of the
batch is stored with its own value. -/
theorem write_many_puts (db : LevelDB) (ks : List Int) (vs : List Value)
    (hnd : ks.Nodup) (hlen : ks.length = vs.length) :
    List.Forall₂ (fun k v => dbGet (write_many db
      (List.zipWith (fun k2 v2 => write_task_t.mk k2 (some v2)) ks vs)) k = some v) ks vs := by
  induction ks generalizing vs db with
  | nil =>
    cases vs with
    | nil => exact List.Forall₂.nil
    | cons v vs => simp at hlen
  | cons k ks ih =>
    cases vs with
    | nil => simp at hlen
    | cons v vs =>
      have hnotmem : k ∉ ks := (List.nodup_cons.mp hnd).1
      have hstep : write_many db
          (List.zipWith (fun k2 v2 => write_task_t.mk k2 (some v2)) (k :: ks) (v :: vs))
          = write_many (dbPut db k v)
            (List.zipWith (fun k2 v2 => write_task_t.mk k2 (some v2)) ks vs) := rfl
      refine List.Forall₂.cons ?_ ?_
      · rw [hstep]
        have hne : ∀ t ∈ List.zipWith (fun k2 v2 => write_task_t.mk k2 (some v2)) ks vs,
            t.key ≠ k := by
          intro t ht hk
          exact hnotmem (hk ▸ key_mem_of_mem_zip ks vs t ht)
        show write_many (dbPut db k v) _ k = some v
        rw [write_many_ne _ _ _ hne]
        simp [dbPut]
      · rw [hstep]
        exact ih (dbPut db k v) vs (List.nodup_cons.mp hnd).2 (by simpa using hlen)

/-- The `read_many` loop over keys that are all present computes their
lengths and the concatenation of their values, in key order. -/
theorem read_many_loop_forall (db : LevelDB) (ks : List Int) (vs : List Value)
    (h : List.Forall₂ (fun k v => dbGet db k = some v) ks vs) :
    read_many_loop db ks = (vs.map List.length, vs.flatten) := by
  induction h with
  | nil => rfl
  | cons hd tl ih =>
    simp only [read_many_loop, ih, hd]
    simp

/-- `ukv_read` (either dispatch target) over keys that are all present
materialises the lengths and concatenated values in the arena. -/
theorem ukv_read_arena_forall (db : LevelDB) (ks : List Int) (vs : List Value)
    (h : List.Forall₂ (fun k v => dbGet db k = some v) ks vs) :
    (ukv_read db ks).arena_lens = vs.map List.length ∧
    (ukv_read db ks).arena_tape = vs.flatten := by
  rcases h with _ | ⟨hd, tl⟩
  · exact ⟨rfl, rfl⟩
  · rename_i k v ks vs
    rcases tl with _ | ⟨hd2, tl2⟩
    · constructor <;> simp [ukv_read, read_one, hd]
    · rename_i k2 v2 ks2 vs2
      have hdisp : ukv_read db (k :: k2 :: ks2) = read_many db (k :: k2 :: ks2) := by
        simp [ukv_read]
      have hloop := read_many_loop_forall db _ _
        (List.Forall₂.cons hd (List.Forall₂.cons hd2 tl2))
      rw [hdisp]
      constructor <;> simp [read_many, hloop]

/-- `ukv_write` agrees with the general batch path for every count: its
single-pair dispatch target `write_one` is the one-element batch. -/
theorem ukv_write_eq_write_many (db : LevelDB) (tasks : List write_task_t) :
    ukv_write db tasks = write_many db tasks := by
  match tasks with
  | [] => rfl
  | [t] => rfl
  | t :: t2 :: ts => rfl

/-- The comparator reads back exactly the key it was handed: decoding the
little-endian two-complement byte image of a signed 64-bit key is the
identity. -/
theorem keyOfSlice_sliceOfKey (k : Int) (h1 : -(2 ^ 63) ≤ k) (h2 : k < 2 ^ 63) :
    keyOfSlice (sliceOfKey k) = k := by
  have hrange : List.range 8 = [0, 1, 2, 3, 4, 5, 6, 7] := by decide
  simp only [keyOfSlice, sliceOfKey, hrange, List.map_cons, List.map_nil,
    List.take_succ_cons, List.take_nil, List.take_cons, List.foldr_cons, List.foldr_nil]
  norm_num
  split <;> omega

/-! ## The claims -/

/-- C1.  The spec requires `lengths[i] = ukv_val_len_missing_k` for every
absent key of a batched read, so a stored empty value stays distinguishable
from an absent key.  `read_one` (the `N = 1` dispatch target) honours this,
but `read_many` pre-fills the lengths with `0` and `continue`s on a miss:
for `N ≥ 2` an absent key gets length `0` in the arena lengths array,
indistinguishable from a stored empty value.  Evaluations below exhibit
the divergence on a two-key batch. -/
theorem read_many_drops_missing_sentinel :
    ukv_read emptyDB [1, 2]
      = { arena_lens := [0, 0], arena_tape := []
          found_lengths := none, found_values := none } ∧
    ukv_read (dbPut emptyDB 1 []) [1, 2]
      = { arena_lens := [0, 0], arena_tape := []
          found_lengths := none, found_values := none } ∧
    (read_one emptyDB 1).arena_lens = [ukv_val_len_missing_k] ∧
    (read_one emptyDB 1).found_lengths = some [ukv_val_len_missing_k] ∧
    (0 : Nat) ≠ ukv_val_len_missing_k := by
  refine ⟨rfl, rfl, rfl, rfl, by decide⟩

/-- The arena side of the batched round trip: after a batched write of
distinct keys through `ukv_write`, a batched read of the same keys computes
exactly the written byte lengths, in batch order, and the in-order
concatenation of the written values into the arena — data that, for two or
more keys, `read_many` then never hands to the caller. -/
theorem write_then_read_arena_contents (db : LevelDB) (ks : List Int)
    (vs : List Value) (hnd : ks.Nodup) (hlen : ks.length = vs.length) :
    (ukv_read (ukv_write db
        (List.zipWith (fun k v => write_task_t.mk k (some v)) ks vs)) ks).arena_lens
      = vs.map List.length ∧
    (ukv_read (ukv_write db
        (List.zipWith (fun k v => write_task_t.mk k (some v)) ks vs)) ks).arena_tape
      = vs.flatten := by
  rw [ukv_write_eq_write_many]
  exact ukv_read_arena_forall _ ks vs (write_many_puts db ks vs hnd hlen)

/-- C2.  The claim requires a batched read after a batched write to report
the written lengths and values to the caller.  For `N ≥ 2` `read_many`
computes exactly those lengths and bytes into the arena but returns
without ever assigning the `c_found_lengths` / `c_found_values`
out-parameters it receives, so the caller of a multi-key batch gets
nothing; only the `N = 1` target `read_one` assigns them.  Evaluations
below exhibit the divergence after writing `{(1, "a"), (2, "bb")}` and
the delivered single-key result for contrast. -/
theorem batched_read_delivers_nothing :
    (ukv_read (ukv_write emptyDB
      [write_task_t.mk 1 (some [97]), write_task_t.mk 2 (some [98, 98])]) [1, 2]).found_lengths
      = none ∧
    (ukv_read (ukv_write emptyDB
      [write_task_t.mk 1 (some [97]), write_task_t.mk 2 (some [98, 98])]) [1, 2]).found_values
      = none ∧
    (ukv_read (ukv_write emptyDB
      [write_task_t.mk 1 (some [97]), write_task_t.mk 2 (some [98, 98])]) [1, 2]).arena_lens
      = [1, 2] ∧
    (ukv_read (ukv_write emptyDB
      [write_task_t.mk 1 (some [97]), write_task_t.mk 2 (some [98, 98])]) [1, 2]).arena_tape
      = [97, 98, 98] ∧
    (ukv_read (ukv_write emptyDB [write_task_t.mk 1 (some [97])]) [1]).found_lengths
      = some [1] ∧
    (ukv_read (ukv_write emptyDB [write_task_t.mk 1 (some [97])]) [1]).found_values
      = some [97] := by
  refine ⟨rfl, rfl, rfl, rfl, rfl, rfl⟩

/-- C3.  The spec says `neighbors(n)` returns, per incident edge, the
endpoint other than `n`.  The source swaps the endpoint pair whenever
`source == n` — moving the neighbor into the source column — and then
returns the target column, so every returned entry is `n` itself, for
source-role and target-role entries alike.  Evaluations below exhibit the
divergence on the adjacency entry `(neighbor 2, edge 100)` of vertex 1. -/
theorem neighbors_returns_query_vertex :
    neighbors 1 (edges_of_adjacency 1 [⟨2, 100, ustore_vertex_role_source_k⟩]) = [1] ∧
    neighbors 1 (edges_of_adjacency 1 [⟨2, 100, ustore_vertex_role_target_k⟩]) = [1] ∧
    ([1] : List Int) ≠ [2] := by
  refine ⟨by decide, by decide, by decide⟩

/-- C4.  The preflight validators reject with an `args_wrong` error every
write/read/scan whose options carry a flag outside the set allowed for the operation, every write or read with a NULL keys pointer, and every scan with a
NULL limits pointer.  (The validators are pure: their only output is the
optional error, so a rejection has no other effect.) -/
theorem validators_reject_bad_options_and_null_pointers (c_txn : Option Unit)
    (places : places_arg_t) (contents : contents_arg_t) (scans : scans_arg_t)
    (c_options : Nat) :
    (enum_is_subset c_options write_allowed_options = false →
      ∃ m, validate_write c_txn places contents c_options = some (error_kind_t.args_wrong_k, m)) ∧
    (places.keys_begin = none →
      ∃ m, validate_write c_txn places contents c_options = some (error_kind_t.args_wrong_k, m)) ∧
    (enum_is_subset c_options read_allowed_options = false →
      ∃ m, validate_read c_txn places c_options = some (error_kind_t.args_wrong_k, m)) ∧
    (places.keys_begin = none →
      ∃ m, validate_read c_txn places c_options = some (error_kind_t.args_wrong_k, m)) ∧
    (enum_is_subset c_options scan_allowed_options = false →
      ∃ m, validate_scan c_txn scans c_options = some (error_kind_t.args_wrong_k, m)) ∧
    (scans.limits = none →
      ∃ m, validate_scan c_txn scans c_options = some (error_kind_t.args_wrong_k, m)) := by
  refine ⟨fun h => ?_, fun h => ?_, fun h => ?_, fun h => ?_, fun h => ?_, fun h => ?_⟩
  · exact ⟨"Invalid options!", by simp [validate_write, h]⟩
  · by_cases ho : enum_is_subset c_options write_allowed_options
    · exact ⟨"No keys were provided!", by simp [validate_write, ho, h]⟩
    · exact ⟨"Invalid options!", by simp [validate_write, ho]⟩
  · exact ⟨"Invalid options!", by simp [validate_read, h]⟩
  · by_cases ho : enum_is_subset c_options read_allowed_options
    · exact ⟨"No keys were provided!", by simp [validate_read, ho, h]⟩
    · exact ⟨"Invalid options!", by simp [validate_read, ho]⟩
  · exact ⟨"Invalid options!", by simp [validate_scan, h]⟩
  · by_cases ho : enum_is_subset c_options scan_allowed_options
    · exact ⟨"Full scans are not supported - paginate!", by simp [validate_scan, ho, h]⟩
    · exact ⟨"Invalid options!", by simp [validate_scan, ho]⟩

/-- C4 witness: option bit 32 belongs to no allowed set, and NULL keys /
limits are rejected, each with an `args_wrong` error. -/
theorem validators_reject_witness :
    (∃ m, validate_write none ⟨none, none, none, 0⟩ ⟨none, none, none, none, 0, 0⟩ 32
      = some (error_kind_t.args_wrong_k, m)) ∧
    (∃ m, validate_read none ⟨none, none, none, 0⟩ 32
      = some (error_kind_t.args_wrong_k, m)) ∧
    (∃ m, validate_scan none ⟨none, none, none, 0⟩ 32
      = some (error_kind_t.args_wrong_k, m)) ∧
    (∃ m, validate_scan none ⟨none, none, none, 0⟩ 0
      = some (error_kind_t.args_wrong_k, m)) := by
  have h := validators_reject_bad_options_and_null_pointers none
    ⟨none, none, none, 0⟩ ⟨none, none, none, none, 0, 0⟩ ⟨none, none, none, 0⟩ 32
  have h0 := validators_reject_bad_options_and_null_pointers none
    ⟨none, none, none, 0⟩ ⟨none, none, none, none, 0, 0⟩ ⟨none, none, none, 0⟩ 0
  exact ⟨h.1 (by decide), h.2.2.1 (by decide), h.2.2.2.2.1 (by decide),
    h0.2.2.2.2.2 rfl⟩

/-- C5.  Once the payload pointer and presence guards pass,
`contents_arg_t::operator[]` probes the three length encodings in order —
an explicit lengths array wins, else the 32-bit offset difference
`offsets[i+1] - offsets[i]`, else a scan to the first separator byte — and
the payload starts at `contents[i] + offsets[i]`, offset `0` when the
offsets array is absent. -/
theorem contents_probe_order (c : contents_arg_t) (cb : Nat → Option (List Nat))
    (buf : List Nat) (i : Nat)
    (h1 : c.contents_begin = some cb) (h2 : cb i = some buf)
    (h3 : ∀ p, c.presences_begin = some p → p i = true) :
    (∀ l, c.lengths_begin = some l →
      c.get i = some ((buf.drop (payload_offset c i)).take (l i))) ∧
    (c.lengths_begin = none → ∀ o, c.offsets_begin = some o →
      c.get i = some ((buf.drop (o i)).take ((o (i + 1) + 2 ^ 32 - o i) % 2 ^ 32))) ∧
    (c.lengths_begin = none → c.offsets_begin = none →
      c.get i = some (buf.takeWhile (fun b => b != c.separator))) := by
  have hget : c.get i = some (contents_payload c i buf) := by
    cases hp : c.presences_begin with
    | none => simp [contents_arg_t.get, h1, h2, hp]
    | some p => simp [contents_arg_t.get, h1, h2, hp, h3 p hp]
  refine ⟨fun l hl => ?_, fun hl o ho => ?_, fun hl ho => ?_⟩
  · rw [hget]
    simp [contents_payload, payload_offset, hl]
  · rw [hget]
    simp [contents_payload, hl, ho]
  · rw [hget]
    simp [contents_payload, hl, ho, take_length_takeWhile]

/-- C5 witness: a bundle whose lengths array says `2` over the buffer
`[5, 6, 7]` yields the payload `[5, 6]`. -/
theorem contents_probe_order_witness :
    contents_arg_t.get ⟨none, none, some (fun _ => 2), some (fun _ => some [5, 6, 7]), 1, 0⟩ 0
      = some [5, 6] := by
  have h := contents_probe_order
    ⟨none, none, some (fun _ => 2), some (fun _ => some [5, 6, 7]), 1, 0⟩
    (fun _ => some [5, 6, 7]) [5, 6, 7] 0 rfl rfl (by intro p hp; cases hp)
  simpa [payload_offset] using h.1 (fun _ => 2) rfl

/-- C6.  NULL argument pointers make the whole argument absent and the
documented defaults apply: the main collection in places and find-edges
bundles, the "any" role in find-edges bundles, and the unlabeled edge-id
sentinel for an edges range constructed without edge ids. -/
theorem null_pointer_defaults (p : places_arg_t) (f : find_edges_t)
    (sources targets : Nat → Int) (i : Nat) :
    (p.collections_begin = none → (p.get i).collection = ustore_collection_main_k) ∧
    (f.collections_begin = none → (f.get i).collection = ustore_collection_main_k) ∧
    (f.roles_begin = none → (f.get i).role = ustore_vertex_role_any_k) ∧
    ((edges_range_no_ids sources targets).get i).id = ustore_default_edge_id_k := by
  refine ⟨fun h => ?_, fun h => ?_, fun h => ?_, rfl⟩
  · simp [places_arg_t.get, h]
  · simp [find_edges_t.get, h]
  · simp [find_edges_t.get, h]

/-- C6 witness: the defaults at index 0 of all-NULL bundles. -/
theorem null_pointer_defaults_witness :
    (places_arg_t.get ⟨none, some (fun _ => 7), none, 1⟩ 0).collection
        = ustore_collection_main_k ∧
    (find_edges_t.get ⟨none, some (fun _ => 7), none, 1⟩ 0).collection
        = ustore_collection_main_k ∧
    (find_edges_t.get ⟨none, some (fun _ => 7), none, 1⟩ 0).role
        = ustore_vertex_role_any_k ∧
    ((edges_range_no_ids (fun _ => 1) (fun _ => 2)).get 0).id
        = ustore_default_edge_id_k := by
  have h := null_pointer_defaults ⟨none, some (fun _ => 7), none, 1⟩
    ⟨none, some (fun _ => 7), none, 1⟩ (fun _ => 1) (fun _ => 2) 0
  exact ⟨h.1 rfl, h.2.1 rfl, h.2.2.1 rfl, h.2.2.2⟩

/-- C7.  `key_comparator_t::Compare` orders keys numerically as signed
64-bit integers: over the byte images of any two in-range keys it returns
`0` exactly on equality, a negative result exactly when the first integer
is smaller, a positive result exactly when it is larger — and not
lexicographically: the byte image of 256 precedes that of 1 in
lexicographic order, yet the comparator places 256 after 1. -/
theorem Compare_orders_keys_numerically (a b : Int)
    (ha1 : -(2 ^ 63) ≤ a) (ha2 : a < 2 ^ 63)
    (hb1 : -(2 ^ 63) ≤ b) (hb2 : b < 2 ^ 63) :
    (key_comparator_Compare (sliceOfKey a) (sliceOfKey b) = 0 ↔ a = b) ∧
    (key_comparator_Compare (sliceOfKey a) (sliceOfKey b) < 0 ↔ a < b) ∧
    (0 < key_comparator_Compare (sliceOfKey a) (sliceOfKey b) ↔ b < a) ∧
    key_comparator_Compare (sliceOfKey 256) (sliceOfKey 1) = 1 ∧
    List.Lex (· < ·) (sliceOfKey 256) (sliceOfKey 1) := by
  have hA := keyOfSlice_sliceOfKey a ha1 ha2
  have hB := keyOfSlice_sliceOfKey b hb1 hb2
  have htri : (key_comparator_Compare (sliceOfKey a) (sliceOfKey b) = 0 ↔ a = b) ∧
      (key_comparator_Compare (sliceOfKey a) (sliceOfKey b) < 0 ↔ a < b) ∧
      (0 < key_comparator_Compare (sliceOfKey a) (sliceOfKey b) ↔ b < a) := by
    rw [key_comparator_Compare, hA, hB]
    split_ifs <;> refine ⟨?_, ?_, ?_⟩ <;> simp <;> omega
  exact ⟨htri.1, htri.2.1, htri.2.2, by decide, by decide⟩

/-- C7 witness: the comparator at the keys 5 and -3. -/
theorem Compare_orders_keys_numerically_witness :
    (key_comparator_Compare (sliceOfKey 5) (sliceOfKey (-3)) = 0 ↔ (5 : Int) = -3) ∧
    (key_comparator_Compare (sliceOfKey 5) (sliceOfKey (-3)) < 0 ↔ (5 : Int) < -3) ∧
    (0 < key_comparator_Compare (sliceOfKey 5) (sliceOfKey (-3)) ↔ (-3 : Int) < 5) ∧
    key_comparator_Compare (sliceOfKey 256) (sliceOfKey 1) = 1 ∧
    List.Lex (· < ·) (sliceOfKey 256) (sliceOfKey 1) :=
  Compare_orders_keys_numerically 5 (-3) (by decide) (by decide) (by decide) (by decide)

/-- C8.  On the LevelDB engine each unsupported-capability entry point sets
its specific "not supported" error, writes no collection or transaction
handle, and leaves the store contents unchanged. -/
theorem leveldb_unsupported_capabilities_error (db : LevelDB) :
    ukv_collection_open db = (db, none, some "Collections not supported by LevelDB!") ∧
    ukv_collection_remove db = (db, some "Collections not supported by LevelDB!") ∧
    ukv_txn_begin db = (db, none, some "Transactions not supported by LevelDB!") ∧
    ukv_txn_commit db = (db, some "Transactions not supported by LevelDB!") :=
  ⟨rfl, rfl, rfl, rfl⟩

/-- C9.  The single-pair fast path `write_one` leaves the store in the same
final state as the general `write_many` on a one-task batch, and
`ukv_write` dispatches to `write_one` exactly on key count 1 — so the
dispatcher always computes the batch-path result. -/
theorem write_one_refines_write_many (db : LevelDB) (t : write_task_t)
    (tasks : List write_task_t) :
    write_one db [t] = write_many db [t] ∧
    ukv_write db tasks
      = (if tasks.length = 1 then write_one db tasks else write_many db tasks) ∧
    ukv_write db tasks = write_many db tasks :=
  ⟨rfl, rfl, ukv_write_eq_write_many db tasks⟩

/-- C10.  With a NULL contents pointer (the delete-all batch form),
`validate_write` rejects with `args_wrong` whenever lengths or offsets are
non-NULL, and accepts exactly when both are NULL, the options are in the
write set and keys are non-NULL. -/
theorem validate_write_remove_all_nulls (c_txn : Option Unit)
    (places : places_arg_t) (contents : contents_arg_t) (c_options : Nat)
    (hc : contents.contents_begin = none) :
    ((contents.lengths_begin ≠ none ∨ contents.offsets_begin ≠ none) →
      ∃ m, validate_write c_txn places contents c_options
        = some (error_kind_t.args_wrong_k, m)) ∧
    (validate_write c_txn places contents c_options = none ↔
      (enum_is_subset c_options write_allowed_options = true ∧
       places.keys_begin ≠ none ∧
       contents.lengths_begin = none ∧ contents.offsets_begin = none)) := by
  constructor
  · intro h
    by_cases ho : enum_is_subset c_options write_allowed_options
    · by_cases hk : places.keys_begin.isNone
      · exact ⟨"No keys were provided!", by simp [validate_write, ho, hk]⟩
      · have hk2 : places.keys_begin.isNone = false := Bool.eq_false_iff.mpr hk
        refine ⟨"Can not address NULLs!", ?_⟩
        rcases h with h | h
        · have hl : contents.lengths_begin.isNone = false := by
            cases hv : contents.lengths_begin <;> simp_all
          simp [validate_write, ho, hk2, hc, hl]
        · have hof : contents.offsets_begin.isNone = false := by
            cases hv : contents.offsets_begin <;> simp_all
          simp [validate_write, ho, hk2, hc, hof]
    · exact ⟨"Invalid options!", by simp [validate_write, ho]⟩
  · constructor
    · intro hnone
      by_cases ho : enum_is_subset c_options write_allowed_options
      · by_cases hk : places.keys_begin.isNone
        · simp [validate_write, ho, hk] at hnone
        · refine ⟨ho, by simpa using hk, ?_⟩
          by_cases hl : contents.lengths_begin.isNone
          · by_cases hof : contents.offsets_begin.isNone
            · exact ⟨by simpa using hl, by simpa using hof⟩
            · simp [validate_write, ho, hk, hc, hl, hof] at hnone
          · simp [validate_write, ho, hk, hc, hl] at hnone
      · simp [validate_write, ho] at hnone
    · rintro ⟨ho, hk, hl, hof⟩
      simp [validate_write, ho, hk, hl, hof]

/-- C10 witness: NULL contents with a non-NULL lengths array is rejected,
and NULL contents with NULL lengths and offsets is accepted. -/
theorem validate_write_remove_all_nulls_witness :
    (∃ m, validate_write none ⟨none, some (fun _ => 42), none, 1⟩
      ⟨none, none, some (fun _ => 3), none, 1, 0⟩ 0
      = some (error_kind_t.args_wrong_k, m)) ∧
    validate_write none ⟨none, some (fun _ => 42), none, 1⟩
      ⟨none, none, none, none, 1, 0⟩ 0 = none := by
  constructor
  · exact (validate_write_remove_all_nulls none ⟨none, some (fun _ => 42), none, 1⟩
      ⟨none, none, some (fun _ => 3), none, 1, 0⟩ 0 rfl).1 (Or.inl (by simp))
  · exact (validate_write_remove_all_nulls none ⟨none, some (fun _ => 42), none, 1⟩
      ⟨none, none, none, none, 1, 0⟩ 0 rfl).2.mpr ⟨by decide, by simp, rfl, rfl⟩

end UKV
